import Mathlib

/-!
Verification of check-es-logs-count: a monitoring probe that posts one
templated search query to an Elasticsearch-style service, parses the hit
count out of the JSON response, compares it to a threshold and reports a
nagios-style verdict, all raced against a timeout.

The Go source is embedded shallowly:

* pure helpers (`normalizeEsQuery`, `parseResult`, `getRenderedTemplate`,
  the URL construction, the threshold comparison) become Lean functions;
* the environment's answers (the HTTP transport outcome, the local date at
  request time, the winner of the select race) become explicit inputs;
* a response body string is represented by its JSON parse outcome
  (`Option Json`, `none` = not valid JSON), since the program only ever
  feeds the body to `json.Unmarshal`;
* Go `int`/`int64` are `Int`, with two's-complement wraparound (`wrap64`)
  applied where the source multiplies or subtracts 64-bit values.
-/

namespace EsCheck

/-- Nagios verdict severities the program produces via nagiosplugin. -/
inductive Verdict
  | OK
  | CRITICAL
  | UNKNOWN
  deriving DecidableEq

/-- Go int64 two's-complement wraparound. -/
def wrap64 (n : Int) : Int := (n + 2 ^ 63) % 2 ^ 64 - 2 ^ 63

/-- A JSON document, as Go's encoding/json sees one after syntactic parsing.
`jint` holds a number literal representable in a Go `int`; `jnumOther` stands
for any other number literal (fractional, exponent form or out of range),
which cannot be unmarshalled into an `int` field. -/
inductive Json
  | jnull
  | jbool (b : Bool)
  | jint (n : Int)
  | jnumOther
  | jstr (s : String)
  | jarr (elems : List Json)
  | jobj (fields : List (String × Json))

/-- The subset of the response the program decodes (struct QueryResult:
`Hits.Total`, json tags "hits" / "total"), flattened to the one field. -/
structure QueryResult where
  hitsTotal : Int
  deriving DecidableEq

/-- encoding/json matches an incoming object key to a struct field by exact
tag match with a case-insensitive fallback. -/
def keyMatch (k target : String) : Bool := k = target || k.toLower = target.toLower

/-- Unmarshal a JSON value into a Go `int` field currently holding `cur`:
null leaves the value unchanged, an int-representable number overwrites it,
anything else is a type error. -/
def decodeIntField (cur : Int) : Json → Except Unit Int
  | .jnull => .ok cur
  | .jint n => .ok n
  | _ => .error ()

/-- Unmarshal the members of a JSON object into the anonymous `Hits` struct:
keys matching "total" are decoded into the `Total` field in order (later
duplicates overwrite), unknown keys are ignored. -/
def decodeHitsFields (cur : Int) : List (String × Json) → Except Unit Int
  | [] => .ok cur
  | (k, v) :: rest =>
    if keyMatch k "total" then
      match decodeIntField cur v with
      | .error e => .error e
      | .ok n => decodeHitsFields n rest
    else decodeHitsFields cur rest

/-- Unmarshal a JSON value into the `Hits` struct field. -/
def decodeHits (cur : Int) : Json → Except Unit Int
  | .jnull => .ok cur
  | .jobj fields => decodeHitsFields cur fields
  | _ => .error ()

/-- Unmarshal the members of the top-level object into `QueryResult`. -/
def decodeTopFields (cur : Int) : List (String × Json) → Except Unit Int
  | [] => .ok cur
  | (k, v) :: rest =>
    if keyMatch k "hits" then
      match decodeHits cur v with
      | .error e => .error e
      | .ok n => decodeTopFields n rest
    else decodeTopFields cur rest

/-- json.Unmarshal of a parsed document into `QueryResult`, returning the
decoded `hits.total` value. -/
def unmarshalQueryResult : Json → Except Unit Int
  | .jnull => .ok 0
  | .jobj fields => decodeTopFields 0 fields
  | _ => .error ()

/-- Embedding of `parseResult`: the input string is represented by its JSON
parse outcome (`none` = not valid JSON); any failure is collapsed to the
fixed "JSON parse failed" message, as in the source. -/
def parseResult (data : Option Json) : Except String QueryResult :=
  match data with
  | none => .error "JSON parse failed"
  | some j =>
    match unmarshalQueryResult j with
    | .error _ => .error "JSON parse failed"
    | .ok n => .ok { hitsTotal := n }

/-- Whether a number literal is int-representable. -/
def isJint : Json → Bool
  | .jint _ => true
  | _ => false

/-- Whether the document carries an integer `hits.total` member: a top-level
object with a member matching "hits" that is an object with a member
matching "total" holding an int-representable number. -/
def hasHitsTotalInt : Json → Bool
  | .jobj fields =>
    fields.any (fun p =>
      keyMatch p.1 "hits" &&
        match p.2 with
        | .jobj gs => gs.any (fun q => keyMatch q.1 "total" && isJint q.2)
        | _ => false)
  | _ => false

/-- A "total" member a decode accepts: null or an int-representable number. -/
def totalFieldOk : Json → Bool
  | .jnull => true
  | .jint _ => true
  | _ => false

/-- A "hits" member a decode accepts. -/
def hitsFieldOk : Json → Bool
  | .jnull => true
  | .jobj gs => gs.all (fun q => !keyMatch q.1 "total" || totalFieldOk q.2)
  | _ => false

/-- Declarative shape under which json.Unmarshal into `QueryResult`
succeeds: null, or an object whose every "hits" member is acceptable. -/
def decodableShape : Json → Bool
  | .jnull => true
  | .jobj fields => fields.all (fun p => !keyMatch p.1 "hits" || hitsFieldOk p.2)
  | _ => false

theorem decodeHitsFields_ok_iff (gs : List (String × Json)) : ∀ cur : Int,
    (∃ n, decodeHitsFields cur gs = Except.ok n)
      ↔ gs.all (fun q => !keyMatch q.1 "total" || totalFieldOk q.2) = true := by
  induction gs with
  | nil => intro cur; simp [decodeHitsFields]
  | cons q rest ih =>
    intro cur
    obtain ⟨k, v⟩ := q
    by_cases hk : keyMatch k "total"
    · cases v <;> simp [decodeHitsFields, decodeIntField, hk, totalFieldOk, ih]
    · simp only [decodeHitsFields, hk, if_false, List.all_cons]
      simp [hk, ih cur]

theorem decodeHits_ok_iff (v : Json) (cur : Int) :
    (∃ n, decodeHits cur v = Except.ok n) ↔ hitsFieldOk v = true := by
  cases v <;> simp [decodeHits, hitsFieldOk, decodeHitsFields_ok_iff]

theorem decodeTopFields_ok_iff (fields : List (String × Json)) : ∀ cur : Int,
    (∃ n, decodeTopFields cur fields = Except.ok n)
      ↔ fields.all (fun p => !keyMatch p.1 "hits" || hitsFieldOk p.2) = true := by
  induction fields with
  | nil => intro cur; simp [decodeTopFields]
  | cons p rest ih =>
    intro cur
    obtain ⟨k, v⟩ := p
    by_cases hk : keyMatch k "hits"
    · simp only [decodeTopFields, hk, if_true, List.all_cons]
      rcases hv : decodeHits cur v with e | n
      · have : ¬ hitsFieldOk v = true := by
          rw [← decodeHits_ok_iff v cur]
          simp [hv]
        simp [this, hk]
      · have : hitsFieldOk v = true := by
          rw [← decodeHits_ok_iff v cur]
          exact ⟨n, hv⟩
        simp [this, hk, ih n]
    · simp only [decodeTopFields, hk, if_false, List.all_cons]
      simp [hk, ih cur]

theorem unmarshal_ok_iff (j : Json) :
    (∃ n, unmarshalQueryResult j = Except.ok n) ↔ decodableShape j = true := by
  cases j <;> simp [unmarshalQueryResult, decodableShape, decodeTopFields_ok_iff]

/-- The two fields of the Go struct TemplateESQuery that the program's
template references. -/
inductive TField
  | query
  | timeFrom
  deriving DecidableEq

/-- A node of a parsed text/template: literal text or a field action. -/
inductive TmplPart
  | lit (cs : List Char)
  | field (f : TField)
  deriving DecidableEq

/-- The Go struct TemplateESQuery (TimeFrom int64, Query string). -/
structure TemplateESQuery where
  TimeFrom : Int
  Query : String

/-- Leading and trailing whitespace stripped, as the template lexer skips
spaces around an action's pipeline. -/
def trimChars (cs : List Char) : List Char :=
  ((cs.dropWhile Char.isWhitespace).reverse.dropWhile Char.isWhitespace).reverse

/-- The text between an action's delimiters. The program's template uses only
the field actions .Query and .TimeFrom, so the embedding of text/template
supports exactly those; any other action is modelled as an error. -/
def actionOf (cs : List Char) : Except String TmplPart :=
  if trimChars cs = ".Query".toList then .ok (.field .query)
  else if trimChars cs = ".TimeFrom".toList then .ok (.field .timeFrom)
  else .error "template: unsupported action"

/-- Scanner state: inside literal text, just after one opening brace of a
possible "\x7b\x7b" delimiter, inside an action, or just after one closing
brace of a possible "\x7d\x7d" delimiter. -/
inductive ScanMode
  | text
  | textBrace
  | action
  | actionBrace
  deriving DecidableEq

/-- text/template scanning restricted to the constructs the program uses:
literal text up to a "\x7b\x7b" opener, then an action up to its "\x7d\x7d"
closer. A lone brace is literal text; an unclosed action is an error. The
accumulator holds the pending literal (or action) characters. -/
def scanTmpl : ScanMode → List Char → List Char → Except String (List TmplPart)
  | .text, acc, [] => .ok [.lit acc]
  | .text, acc, c :: rest =>
    if c = '{' then scanTmpl .textBrace acc rest
    else scanTmpl .text (acc ++ [c]) rest
  | .textBrace, acc, [] => .ok [.lit (acc ++ ['{'])]
  | .textBrace, acc, c :: rest =>
    if c = '{' then (scanTmpl .action [] rest).map (fun ps => .lit acc :: ps)
    else scanTmpl .text (acc ++ ['{', c]) rest
  | .action, _, [] => .error "template: unclosed action"
  | .action, acc, c :: rest =>
    if c = '}' then scanTmpl .actionBrace acc rest
    else scanTmpl .action (acc ++ [c]) rest
  | .actionBrace, _, [] => .error "template: unclosed action"
  | .actionBrace, acc, c :: rest =>
    if c = '}' then
      match actionOf acc with
      | .error e => .error e
      | .ok p => (scanTmpl .text [] rest).map (fun ps => p :: ps)
    else scanTmpl .action (acc ++ ['}', c]) rest

/-- tmpl.Execute: literal text is emitted as is, a field action emits the
field's value (ints print in decimal, as fmt does). -/
def renderParts (t : TemplateESQuery) : List TmplPart → String
  | [] => ""
  | .lit cs :: rest => String.mk cs ++ renderParts t rest
  | .field .query :: rest => t.Query ++ renderParts t rest
  | .field .timeFrom :: rest => toString t.TimeFrom ++ renderParts t rest

/-- Embedding of `getRenderedTemplate`: builds the TemplateESQuery value with
TimeFrom = timeFrom * 1000 (an int64 product) and Query = query, then parses
and executes the template. -/
def getRenderedTemplate (templateSource query : String) (timeFrom : Int) :
    Except String String :=
  match scanTmpl .text [] templateSource.toList with
  | .error e => .error e
  | .ok parts =>
    .ok (renderParts { TimeFrom := wrap64 (timeFrom * 1000), Query := query } parts)

/-- strings.Replace(str, quote, backslash-quote, -1), character by character
(the pattern is the single double-quote character). -/
def replaceQuoteChars : List Char → List Char
  | [] => []
  | c :: rest =>
    if c = '"' then '\\' :: '"' :: replaceQuoteChars rest
    else c :: replaceQuoteChars rest

/-- Embedding of `normalizeEsQuery`. -/
def normalizeEsQuery (s : String) : String := String.mk (replaceQuoteChars s.toList)

/-- The response part of what gorequest's End() returns. -/
structure HttpResp where
  StatusCode : Int
  Status : String

/-- Outcome of request.Post(url).Send(content).End(): a non-nil error list,
or a response together with its body (the body represented by its JSON parse
outcome, see `parseResult`). -/
inductive GoRequestResult
  | failure (errs : List String)
  | success (resp : HttpResp) (body : Option Json)

/-- Embedding of `esQueryPost`: a non-nil error list is joined with ", ",
then any status other than 200 is an error carrying the status line, else
the body is returned. -/
def esQueryPost (url content : String) (r : GoRequestResult) :
    Except String (Option Json) :=
  match r with
  | .failure errs => .error (String.intercalate ", " errs)
  | .success resp body =>
    if resp.StatusCode ≠ 200 then .error ("HTTP response code: " ++ resp.Status)
    else .ok body

/-- A calendar date in the host's local timezone. -/
structure LocalDate where
  year : Nat
  month : Nat
  day : Nat
  deriving DecidableEq

/-- A number zero-padded to `width` digits. -/
def padNum (width n : Nat) : String :=
  String.mk (List.replicate (width - (toString n).length) '0') ++ toString n

/-- Go time.Format with layout "2006.01.02": four-digit year, two-digit
month and day, dot separated. -/
def formatDate (d : LocalDate) : String :=
  padNum 4 d.year ++ "." ++ padNum 2 d.month ++ "." ++ padNum 2 d.day

/-- The channel message struct Msg (Count int, Err error); a path that sets
only Err sends the zero Count. -/
structure Msg where
  Count : Int
  Err : Option String
  deriving DecidableEq

/-- The request URL built inside getQueryResultCount:
url + "/" + indexPattern + "-" + the formatted local date + "/_search". -/
def searchURL (url indexPattern : String) (date : LocalDate) : String :=
  url ++ "/" ++ indexPattern ++ "-" ++ formatDate date ++ "/_search"

/-- Embedding of `getQueryResultCount`. Inputs the code reads from the
environment are parameters: `date` is the local date at request time and
`http` the transport's answer to the single POST. The result is the list of
messages sent on the channel and the list of POST requests issued, each as
(url, body). -/
def getQueryResultCount (url indexPattern templateSource query : String)
    (timeFrom : Int) (date : LocalDate) (http : GoRequestResult) :
    List Msg × List (String × String) :=
  match getRenderedTemplate templateSource query timeFrom with
  | .error e => ([{ Count := 0, Err := some e }], [])
  | .ok tmpl =>
    match esQueryPost (searchURL url indexPattern date) tmpl http with
    | .error e => ([{ Count := 0, Err := some e }], [(searchURL url indexPattern date, tmpl)])
    | .ok body =>
      match parseResult body with
      | .error e => ([{ Count := 0, Err := some e }], [(searchURL url indexPattern date, tmpl)])
      | .ok result =>
        ([{ Count := result.hitsTotal, Err := none }], [(searchURL url indexPattern date, tmpl)])

/-- Two-decimal rendering of count/threshold*100, abstracting the %.2f
formatting of the Go float64 quotient (binary rounding not modelled; no
claim concerns this text). -/
def percString (count threshold : Int) : String :=
  let n : Int := round ((count * 10000 : ℚ) / (threshold : ℚ))
  (if n < 0 then "-" else "") ++ toString (n.natAbs / 100) ++ "." ++ padNum 2 (n.natAbs % 100)

/-- The Sprintf text "%d entries of '%s' (%.2f%%) found in the past %d
minutes" of the OK and CRITICAL results. -/
def entriesMessage (count : Int) (query perc : String) (timePeriod : Int) : String :=
  toString count ++ " entries of '" ++ query ++ "' (" ++ perc ++ "%) found in the past "
    ++ toString timePeriod ++ " minutes"

/-- The entry point's handling of a received channel message: the
if/else-if chain over the compare operator and threshold, or the error
reported as UNKNOWN. `none` models the fall-through on which no result is
added (unreachable once the operator is validated). -/
def handleMsg (compareOperator : String) (countThreshold : Int) (esQuery : String)
    (timePeriod : Int) (msg : Msg) : Option (Verdict × String) :=
  match msg.Err with
  | none =>
    if (compareOperator = "gt" ∧ msg.Count ≥ countThreshold)
        ∨ (compareOperator = "lt" ∧ msg.Count ≤ countThreshold) then
      some (.OK, entriesMessage msg.Count esQuery (percString msg.Count countThreshold) timePeriod)
    else if (compareOperator = "gt" ∧ msg.Count < countThreshold)
        ∨ (compareOperator = "lt" ∧ msg.Count > countThreshold) then
      some (.CRITICAL, entriesMessage msg.Count esQuery (percString msg.Count countThreshold) timePeriod)
    else none
  | some e => some (.UNKNOWN, e)

/-- The command-line configuration, one field per flag. -/
structure Config where
  esURL : String
  timeout : Int
  timePeriod : Int
  indexPattern : String
  esQuery : String
  countThreshold : Int
  compareOperator : String

/-- What one invocation of main does, observably: the result added to the
check (severity and text; none when no result is added), whether the query
pipeline goroutine was launched, the POST requests issued, and which of the
two select cases was consumed. -/
structure RunTrace where
  result : Option (Verdict × String)
  pipelineLaunched : Bool
  requests : List (String × String)
  consumedMsg : Bool
  consumedTimeout : Bool

/-- The program's fixed query template, verbatim. -/
def templateSource : String := r#"
	{
		"size": 0,
		"query": {
			"bool": {
				"must": [
					{
						"query_string": {
							"analyze_wildcard": true,
							"query": "{{ .Query }}"
						}
					},
					{
						"range": {
							"@timestamp": {
								"lte": "now",
								"gte": {{ .TimeFrom }},
								"format": "epoch_millis"
							}
						}
					}
				],
				"must_not": []
			}
		},
		"_source": {
			"excludes": []
		},
		"aggs": {
			"3": {
				"date_histogram": {
					"field": "@timestamp",
					"interval": "1h",
					"time_zone": "UTC",
					"min_doc_count": 1
				}
			}
		}
	}
	"#

/-- Embedding of main after flag parsing. `now` is time.Now().Unix(), `date`
the local date at request time, `http` the environment's answer to a POST,
and `timeoutFires` whether the time.After case wins the select race. -/
def mainRun (cfg : Config) (now : Int) (date : LocalDate) (http : GoRequestResult)
    (timeoutFires : Bool) : RunTrace :=
  if cfg.compareOperator ≠ "lt" ∧ cfg.compareOperator ≠ "gt" then
    { result := some (.UNKNOWN, "compare-operator parameter should be 'lt' or 'gt'"),
      pipelineLaunched := false, requests := [], consumedMsg := false,
      consumedTimeout := false }
  else if cfg.countThreshold = 0 then
    { result := some (.UNKNOWN, "threshold cannot be equal to 0"),
      pipelineLaunched := false, requests := [], consumedMsg := false,
      consumedTimeout := false }
  else
    let pipe := getQueryResultCount cfg.esURL cfg.indexPattern templateSource
      (normalizeEsQuery cfg.esQuery) (wrap64 (now - wrap64 (60 * cfg.timePeriod)))
      date http
    if timeoutFires then
      { result := some (.UNKNOWN, "connection timeout"), pipelineLaunched := true,
        requests := pipe.2, consumedMsg := false, consumedTimeout := true }
    else
      { result := handleMsg cfg.compareOperator cfg.countThreshold cfg.esQuery
          cfg.timePeriod (pipe.1.headD { Count := 0, Err := none }),
        pipelineLaunched := true, requests := pipe.2, consumedMsg := true,
        consumedTimeout := false }

/-! ## Claim theorems -/

/-- C1: for a validated operator ("gt" or "lt") and nonzero threshold, a
successfully obtained count yields verdict OK exactly when (gt and count ≥
threshold) or (lt and count ≤ threshold), CRITICAL exactly when (gt and
count < threshold) or (lt and count > threshold); count = threshold is OK
under both operators. -/
theorem c1_threshold_verdict (op : String) (th : Int) (q : String) (tp : Int)
    (count : Int) (hop : op = "gt" ∨ op = "lt") (hth : th ≠ 0) :
    ((handleMsg op th q tp { Count := count, Err := none }).map Prod.fst = some Verdict.OK
      ↔ ((op = "gt" ∧ count ≥ th) ∨ (op = "lt" ∧ count ≤ th)))
    ∧ ((handleMsg op th q tp { Count := count, Err := none }).map Prod.fst = some Verdict.CRITICAL
      ↔ ((op = "gt" ∧ count < th) ∨ (op = "lt" ∧ count > th)))
    ∧ (count = th →
      (handleMsg op th q tp { Count := count, Err := none }).map Prod.fst = some Verdict.OK) := by
  have hne : ("gt" : String) ≠ "lt" := by decide
  rcases hop with h | h <;> subst h <;>
    simp only [handleMsg, hne, Ne.symm hne, false_and, and_false, or_false, false_or,
      true_and, eq_self_iff_true] <;>
    refine ⟨?_, ?_, ?_⟩ <;> split_ifs with h1 h2 <;> simp_all <;> omega

/-- C1 witness: operator gt, threshold 10, count 10 is OK. -/
theorem c1_threshold_verdict_witness :
    (handleMsg "gt" 10 "*" 5 { Count := 10, Err := none }).map Prod.fst = some Verdict.OK :=
  (c1_threshold_verdict "gt" 10 "*" 5 10 (Or.inl rfl) (by decide)).2.2 rfl

/-- C2 counterexample: the empty JSON object is valid JSON with no hits.total
field, yet parseResult succeeds (with count 0) instead of returning the
"JSON parse failed" error the claim requires for an absent field. -/
theorem c2_counterexample_empty_object :
    parseResult (some (Json.jobj [])) = Except.ok { hitsTotal := 0 }
    ∧ hasHitsTotalInt (Json.jobj []) = false :=
  ⟨rfl, rfl⟩

/-- C2 (amended): parseResult fails, always with the fixed message
"JSON parse failed", exactly when the input is not valid JSON or is valid
JSON that does not decode into the result struct (`decodableShape`: the
top-level value is neither object nor null, or a hits member is neither
object nor null, or a total member inside hits is neither an
int-representable number nor null). A well-formed document's integer
hits.total is returned; a document merely lacking the field is not an
error. -/
theorem c2_parse_error_characterization (data : Option Json) :
    ((∃ e, parseResult data = Except.error e)
      ↔ (data = none ∨ ∃ j, data = some j ∧ decodableShape j = false))
    ∧ (∀ e, parseResult data = Except.error e → e = "JSON parse failed")
    ∧ (∀ n : Int,
        parseResult (some (Json.jobj [("hits", Json.jobj [("total", Json.jint n)])]))
          = Except.ok { hitsTotal := n }) := by
  refine ⟨?_, ?_, fun n => rfl⟩
  · cases data with
    | none => simp [parseResult]
    | some j =>
      rcases h : unmarshalQueryResult j with e | n
      · have : ¬ decodableShape j = true := by
          rw [← unmarshal_ok_iff]
          simp [h]
        simp only [parseResult, h]
        simp [this]
      · have : decodableShape j = true := by
          rw [← unmarshal_ok_iff]
          exact ⟨n, h⟩
        simp only [parseResult, h]
        simp [this]
  · cases data with
    | none =>
      intro e he
      simpa [parseResult] using he.symm
    | some j =>
      intro e he
      rcases h : unmarshalQueryResult j with e2 | n <;> simp only [parseResult, h] at he
      · exact (Except.error.inj he).symm
      · cases he

/-- C10 counterexample: a valid JSON object with no hits.total field on
which parseResult fails instead of returning count 0: the object whose
"hits" member is the number 5 (not an object), which json.Unmarshal rejects
as a type error. -/
theorem c10_counterexample_bad_hits :
    parseResult (some (Json.jobj [("hits", Json.jint 5)])) = Except.error "JSON parse failed"
    ∧ hasHitsTotalInt (Json.jobj [("hits", Json.jint 5)]) = false :=
  ⟨rfl, rfl⟩

theorem decodeHitsFields_no_int (gs : List (String × Json))
    (hok : gs.all (fun q => !keyMatch q.1 "total" || totalFieldOk q.2) = true)
    (hno : gs.any (fun q => keyMatch q.1 "total" && isJint q.2) = false) :
    decodeHitsFields 0 gs = Except.ok 0 := by
  induction gs with
  | nil => rfl
  | cons q rest ih =>
    obtain ⟨k, v⟩ := q
    simp only [List.all_cons, Bool.and_eq_true] at hok
    simp only [List.any_cons, Bool.or_eq_false_iff, Bool.and_eq_false_iff] at hno
    by_cases hk : keyMatch k "total"
    · have hv : v = Json.jnull := by
        rcases hno.1 with h | h
        · simp [hk] at h
        · have h1 : totalFieldOk v = true := by simpa [hk] using hok.1
          cases v <;> simp_all [totalFieldOk, isJint]
      subst hv
      simp only [decodeHitsFields, hk, if_true, decodeIntField]
      exact ih hok.2 hno.2
    · simp only [decodeHitsFields, hk, if_false]
      exact ih hok.2 hno.2

theorem decodeTopFields_no_int (fields : List (String × Json))
    (hok : fields.all (fun p => !keyMatch p.1 "hits" || hitsFieldOk p.2) = true)
    (hno : fields.any (fun p =>
      keyMatch p.1 "hits" &&
        match p.2 with
        | .jobj gs => gs.any (fun q => keyMatch q.1 "total" && isJint q.2)
        | _ => false) = false) :
    decodeTopFields 0 fields = Except.ok 0 := by
  induction fields with
  | nil => rfl
  | cons p rest ih =>
    obtain ⟨k, v⟩ := p
    simp only [List.all_cons, Bool.and_eq_true] at hok
    simp only [List.any_cons, Bool.or_eq_false_iff, Bool.and_eq_false_iff] at hno
    by_cases hk : keyMatch k "hits"
    · have hv : decodeHits 0 v = Except.ok 0 := by
        have h1 : hitsFieldOk v = true := by simpa [hk] using hok.1
        cases v with
        | jnull => rfl
        | jobj gs =>
          have h2 : gs.any (fun q => keyMatch q.1 "total" && isJint q.2) = false := by
            rcases hno.1 with h | h
            · simp [hk] at h
            · simpa using h
          exact decodeHitsFields_no_int gs (by simpa [hitsFieldOk] using h1) h2
        | _ => simp [hitsFieldOk] at h1
      simp only [decodeTopFields, hk, if_true, hv]
      exact ih hok.2 hno.2
    · simp only [decodeTopFields, hk, if_false]
      exact ih hok.2 hno.2

/-- C10 (amended): a valid JSON input that decodes into the result struct
and carries no integer hits.total member — in particular any object with no
hits member at all, such as the empty object — yields hit count 0 with no
error, a success rather than a parse failure. -/
theorem c10_absent_total_yields_zero (j : Json)
    (hdec : decodableShape j = true) (habs : hasHitsTotalInt j = false) :
    parseResult (some j) = Except.ok { hitsTotal := 0 } := by
  cases j with
  | jnull => rfl
  | jobj fields =>
    have h := decodeTopFields_no_int fields (by simpa [decodableShape] using hdec)
      (by simpa [hasHitsTotalInt] using habs)
    simp [parseResult, unmarshalQueryResult, h]
  | _ => simp [decodableShape] at hdec

/-- C10 witness: the empty JSON object parses to count 0 with no error. -/
theorem c10_absent_total_yields_zero_witness :
    parseResult (some (Json.jobj [])) = Except.ok { hitsTotal := 0 } :=
  c10_absent_total_yields_zero (Json.jobj []) rfl rfl

/-- C3: when the operator is neither "lt" nor "gt", or the threshold is 0,
main adds an UNKNOWN result, never launches the query pipeline and issues no
HTTP request, whatever the environment would have answered. -/
theorem c3_validation_short_circuits (cfg : Config) (now : Int) (date : LocalDate)
    (http : GoRequestResult) (t : Bool)
    (hbad : (cfg.compareOperator ≠ "lt" ∧ cfg.compareOperator ≠ "gt")
      ∨ cfg.countThreshold = 0) :
    (mainRun cfg now date http t).result.map Prod.fst = some Verdict.UNKNOWN
    ∧ (mainRun cfg now date http t).pipelineLaunched = false
    ∧ (mainRun cfg now date http t).requests = [] := by
  unfold mainRun
  by_cases h1 : cfg.compareOperator ≠ "lt" ∧ cfg.compareOperator ≠ "gt"
  · rw [if_pos h1]
    exact ⟨rfl, rfl, rfl⟩
  · rw [if_neg h1]
    have h2 : cfg.countThreshold = 0 := by
      rcases hbad with h | h
      · exact absurd h h1
      · exact h
    rw [if_pos h2]
    exact ⟨rfl, rfl, rfl⟩

/-- C3 witness: operator "xx" short-circuits to UNKNOWN with no request. -/
theorem c3_validation_short_circuits_witness :
    (mainRun
        { esURL := "http://localhost:9200", timeout := 20, timePeriod := 5,
          indexPattern := "logstash-*", esQuery := "*", countThreshold := 100,
          compareOperator := "xx" }
        0 { year := 2026, month := 10, day := 11 } (GoRequestResult.failure []) false).result.map
      Prod.fst = some Verdict.UNKNOWN :=
  (c3_validation_short_circuits _ 0 _ _ false (Or.inl ⟨by decide, by decide⟩)).1

/-- C4: on a validated configuration, if the timeout case of the select wins
the race, main adds the UNKNOWN result with the fixed message "connection
timeout", whatever the abandoned pipeline would have produced (the transport
outcome `http` is universally quantified). -/
theorem c4_timeout_unknown (cfg : Config) (now : Int) (date : LocalDate)
    (http : GoRequestResult)
    (hop : cfg.compareOperator = "lt" ∨ cfg.compareOperator = "gt")
    (hth : cfg.countThreshold ≠ 0) :
    (mainRun cfg now date http true).result
      = some (Verdict.UNKNOWN, "connection timeout") := by
  have h1 : ¬(cfg.compareOperator ≠ "lt" ∧ cfg.compareOperator ≠ "gt") := by
    rcases hop with h | h <;> simp [h]
  unfold mainRun
  rw [if_neg h1, if_neg hth]
  rfl

/-- C4 witness: a pipeline that would have succeeded with a large count is
still reported as UNKNOWN "connection timeout" when the timeout fires. -/
theorem c4_timeout_unknown_witness :
    (mainRun
        { esURL := "u", timeout := 1, timePeriod := 5, indexPattern := "i",
          esQuery := "*", countThreshold := 10, compareOperator := "gt" }
        0 { year := 2026, month := 10, day := 11 }
        (GoRequestResult.success { StatusCode := 200, Status := "200 OK" }
          (some (Json.jobj [("hits", Json.jobj [("total", Json.jint 1000000)])])))
        true).result
      = some (Verdict.UNKNOWN, "connection timeout") :=
  c4_timeout_unknown _ 0 _ _ (Or.inr rfl) (by decide)

/-- C7: the POST succeeds, returning the raw response body, exactly when
there is no transport error and the status is exactly 200; a response with
any other status yields the error "HTTP response code: " followed by the
status line; a transport failure yields the comma-joined error list. -/
theorem c7_post_success_iff (url content : String) (r : GoRequestResult) :
    ((∃ body, esQueryPost url content r = Except.ok body)
      ↔ ∃ resp body, r = GoRequestResult.success resp body ∧ resp.StatusCode = 200)
    ∧ (∀ resp body, r = GoRequestResult.success resp body → resp.StatusCode = 200 →
        esQueryPost url content r = Except.ok body)
    ∧ (∀ resp body, r = GoRequestResult.success resp body → resp.StatusCode ≠ 200 →
        esQueryPost url content r = Except.error ("HTTP response code: " ++ resp.Status))
    ∧ (∀ errs, r = GoRequestResult.failure errs →
        esQueryPost url content r = Except.error (String.intercalate ", " errs)) := by
  refine ⟨?_, ?_, ?_, ?_⟩
  · cases r with
    | failure errs => simp [esQueryPost]
    | success resp body =>
      by_cases h : resp.StatusCode = 200 <;> simp [esQueryPost, h]
  · rintro resp body rfl h
    simp [esQueryPost, h]
  · rintro resp body rfl h
    simp [esQueryPost, h]
  · rintro errs rfl
    rfl

/-- C8: every POST the pipeline issues goes to the URL made of the base URL,
"/", the index pattern, "-", the request-time local date rendered as
YYYY.MM.DD (four-digit year, two-digit month and day, dot separated), and
"/_search". -/
theorem c8_request_url (url indexPattern templateSource query : String)
    (timeFrom : Int) (date : LocalDate) (http : GoRequestResult)
    (req : String × String)
    (hmem : req ∈ (getQueryResultCount url indexPattern templateSource query
      timeFrom date http).2) :
    req.1 = url ++ "/" ++ indexPattern ++ "-" ++ formatDate date ++ "/_search"
    ∧ formatDate date
      = padNum 4 date.year ++ "." ++ padNum 2 date.month ++ "." ++ padNum 2 date.day := by
  refine ⟨?_, rfl⟩
  unfold getQueryResultCount at hmem
  split at hmem
  · simp at hmem
  · split at hmem <;> try split at hmem
    all_goals
      simp only [List.mem_singleton] at hmem
      subst hmem
      rfl

/-- C8 witness: with a one-character template and a failing transport, the
single request recorded goes to base/index-2026.10.11/_search. -/
theorem c8_request_url_witness :
    (("u/i-2026.10.11/_search", "x") : String × String).1
      = "u" ++ "/" ++ "i" ++ "-" ++ formatDate { year := 2026, month := 10, day := 11 }
        ++ "/_search"
    ∧ formatDate { year := 2026, month := 10, day := 11 }
      = padNum 4 2026 ++ "." ++ padNum 2 10 ++ "." ++ padNum 2 11 :=
  c8_request_url "u" "i" "x" "q" 0 { year := 2026, month := 10, day := 11 }
    (GoRequestResult.failure []) ("u/i-2026.10.11/_search", "x") (by decide)

theorem getQueryResultCount_one_message (url indexPattern templateSource query : String)
    (timeFrom : Int) (date : LocalDate) (http : GoRequestResult) :
    (getQueryResultCount url indexPattern templateSource query timeFrom date http).1.length
      = 1 := by
  unfold getQueryResultCount
  split
  · rfl
  · split <;> try split
    all_goals rfl

theorem getQueryResultCount_at_most_one_request
    (url indexPattern templateSource query : String)
    (timeFrom : Int) (date : LocalDate) (http : GoRequestResult) :
    (getQueryResultCount url indexPattern templateSource query timeFrom date http).2.length
      ≤ 1 := by
  unfold getQueryResultCount
  split
  · simp
  · split <;> try split
    all_goals simp

/-- C9: on every path the pipeline sends exactly one message on the channel
and issues at most one POST; per invocation main issues at most one POST and
consumes at most one of the message and the timeout signal. -/
theorem c9_single_message_invariant :
    (∀ (url indexPattern templateSource query : String) (timeFrom : Int)
        (date : LocalDate) (http : GoRequestResult),
      (getQueryResultCount url indexPattern templateSource query timeFrom date http).1.length = 1
      ∧ (getQueryResultCount url indexPattern templateSource query timeFrom date http).2.length ≤ 1)
    ∧ (∀ (cfg : Config) (now : Int) (date : LocalDate) (http : GoRequestResult) (t : Bool),
      (mainRun cfg now date http t).requests.length ≤ 1
      ∧ ¬((mainRun cfg now date http t).consumedMsg = true
          ∧ (mainRun cfg now date http t).consumedTimeout = true)) := by
  constructor
  · intro url indexPattern templateSource query timeFrom date http
    exact ⟨getQueryResultCount_one_message _ _ _ _ _ _ _,
      getQueryResultCount_at_most_one_request _ _ _ _ _ _ _⟩
  · intro cfg now date http t
    unfold mainRun
    split_ifs <;>
      simp [getQueryResultCount_at_most_one_request]

/-- C6: normalizeEsQuery replaces every double-quote character by a
backslash followed by a double-quote and leaves every other character
unchanged. -/
theorem c6_normalize_escapes_quotes (s : String) :
    (normalizeEsQuery s).toList
      = s.toList.flatMap (fun c => if c = '"' then ['\\', '"'] else [c]) := by
  show replaceQuoteChars s.toList = _
  induction s.toList with
  | nil => rfl
  | cons c rest ih =>
    by_cases hc : c = '"' <;>
      simp [replaceQuoteChars, hc, ih]

/-- Literal text the scanner absorbs unchanged wherever it stands: no brace
directly followed by another brace, and no trailing brace (so that it cannot
merge with a following action opener). -/
def textSafe : List Char → Bool
  | [] => true
  | c :: rest =>
    (if c = '{' then
      match rest.head? with
      | some c2 => if c2 = '{' then false else true
      | none => false
     else true)
    && textSafe rest

theorem scanTmpl_text_step (acc : List Char) (c : Char) (rest : List Char)
    (hc : ¬ c = '{') :
    scanTmpl .text acc (c :: rest) = scanTmpl .text (acc ++ [c]) rest := by
  simp [scanTmpl, hc]

theorem scanTmpl_text_brace_step (acc : List Char) (c2 : Char) (rest : List Char)
    (hc2 : ¬ c2 = '{') :
    scanTmpl .text acc ('{' :: c2 :: rest) = scanTmpl .text (acc ++ ['{', c2]) rest := by
  simp [scanTmpl, hc2]

theorem scanTmpl_action_step (acc : List Char) (c : Char) (rest : List Char)
    (hc : ¬ c = '}') :
    scanTmpl .action acc (c :: rest) = scanTmpl .action (acc ++ [c]) rest := by
  simp [scanTmpl, hc]

theorem scanText_append_aux (n : Nat) : ∀ (cs acc rest : List Char), cs.length ≤ n →
    textSafe cs = true →
    scanTmpl .text acc (cs ++ rest) = scanTmpl .text (acc ++ cs) rest := by
  induction n with
  | zero =>
    intro cs acc rest hlen _
    have : cs = [] := List.eq_nil_of_length_eq_zero (Nat.le_zero.mp hlen)
    subst this
    simp
  | succ n ih =>
    intro cs acc rest hlen hsafe
    cases cs with
    | nil => simp
    | cons c cs2 =>
      by_cases hc : c = '{'
      · subst hc
        simp only [textSafe, if_pos rfl, Bool.and_eq_true] at hsafe
        cases cs2 with
        | nil => simp at hsafe
        | cons c2 cs3 =>
          simp only [List.head?_cons] at hsafe
          have hc2 : ¬ c2 = '{' := by
            rcases hsafe with ⟨h1, _⟩
            by_cases h : c2 = '{' <;> simp [h] at h1 ⊢
          have hsafe3 : textSafe cs3 = true := by
            have h2 := hsafe.2
            simp only [textSafe, Bool.and_eq_true] at h2
            exact h2.2
          rw [List.cons_append, List.cons_append,
            scanTmpl_text_brace_step acc c2 (cs3 ++ rest) hc2,
            ih cs3 (acc ++ ['{', c2]) rest (by simp at hlen; omega) hsafe3]
          simp
      · simp only [textSafe, if_neg hc, Bool.true_and] at hsafe
        rw [List.cons_append, scanTmpl_text_step acc c (cs2 ++ rest) hc,
          ih cs2 (acc ++ [c]) rest (by simp at hlen; omega) hsafe]
        simp

theorem scanText_append (cs acc rest : List Char) (h : textSafe cs = true) :
    scanTmpl .text acc (cs ++ rest) = scanTmpl .text (acc ++ cs) rest :=
  scanText_append_aux cs.length cs acc rest le_rfl h

theorem scanAction_append (cs : List Char) : ∀ (acc rest : List Char), '}' ∉ cs →
    scanTmpl .action acc (cs ++ rest) = scanTmpl .action (acc ++ cs) rest := by
  induction cs with
  | nil => intro acc rest _; simp
  | cons c cs2 ih =>
    intro acc rest h
    have hc : ¬ c = '}' := fun hc => h (hc ▸ List.mem_cons_self c cs2)
    rw [List.cons_append, scanTmpl_action_step acc c (cs2 ++ rest) hc,
      ih (acc ++ [c]) rest (fun hm => h (List.mem_cons_of_mem c hm))]
    simp

theorem scanTmpl_open (acc rest : List Char) :
    scanTmpl .text acc ('{' :: '{' :: rest)
      = (scanTmpl .action [] rest).map (fun ps => TmplPart.lit acc :: ps) := rfl

theorem scanTmpl_close (acc rest : List Char) :
    scanTmpl .action acc ('}' :: '}' :: rest)
      = match actionOf acc with
        | .error e => .error e
        | .ok p => (scanTmpl .text [] rest).map (fun ps => p :: ps) := rfl

theorem toList_append (a b : String) : (a ++ b).toList = a.toList ++ b.toList :=
  String.data_append a b

theorem wrap64_eq_of_range (n : Int) (h1 : -(2 ^ 63) ≤ n) (h2 : n < 2 ^ 63) :
    wrap64 n = n := by
  have hp : (2 : Int) ^ 63 = 9223372036854775808 := by norm_num
  have hq : (2 : Int) ^ 64 = 18446744073709551616 := by norm_num
  unfold wrap64
  rw [hp, hq] at *
  omega

/-- C5: for every template source made of safe literal text around the
program's two placeholders, every query string and every time bound T whose
millisecond value fits an int64, the renderer substitutes T*1000 for the
.TimeFrom placeholder and the query string for the .Query placeholder,
leaving the literal text unchanged. -/
theorem c5_render_substitutes (pre mid post query : String) (T : Int)
    (hpre : textSafe pre.toList = true) (hmid : textSafe mid.toList = true)
    (hpost : textSafe post.toList = true)
    (hlo : -(2 ^ 63) ≤ T * 1000) (hhi : T * 1000 < 2 ^ 63) :
    getRenderedTemplate (pre ++ "{{ .Query }}" ++ mid ++ "{{ .TimeFrom }}" ++ post) query T
      = Except.ok (pre ++ query ++ mid ++ toString (T * 1000) ++ post) := by
  have hq : ('}' : Char) ∉ " .Query ".toList := by decide
  have htf : ('}' : Char) ∉ " .TimeFrom ".toList := by decide
  have hA : ∀ W : List Char,
      "{{ .Query }}".toList ++ W
        = '{' :: '{' :: (" .Query ".toList ++ ('}' :: '}' :: W)) := fun _ => rfl
  have hB : ∀ W : List Char,
      "{{ .TimeFrom }}".toList ++ W
        = '{' :: '{' :: (" .TimeFrom ".toList ++ ('}' :: '}' :: W)) := fun _ => rfl
  have hcloseQ : ∀ rest : List Char,
      scanTmpl .action " .Query ".toList ('}' :: '}' :: rest)
        = (scanTmpl .text [] rest).map
            (fun ps => TmplPart.field TField.query :: ps) := fun _ => rfl
  have hcloseT : ∀ rest : List Char,
      scanTmpl .action " .TimeFrom ".toList ('}' :: '}' :: rest)
        = (scanTmpl .text [] rest).map
            (fun ps => TmplPart.field TField.timeFrom :: ps) := fun _ => rfl
  have h5 : scanTmpl .text [] post.toList = Except.ok [TmplPart.lit post.toList] := by
    have h := scanText_append post.toList [] [] hpost
    simpa using h
  have h4 : scanTmpl .action []
      (" .TimeFrom ".toList ++ ('}' :: '}' :: post.toList))
      = Except.ok [TmplPart.field TField.timeFrom, TmplPart.lit post.toList] := by
    rw [scanAction_append _ [] _ htf, List.nil_append, hcloseT, h5]
    rfl
  have h3 : scanTmpl .text []
      (mid.toList ++ ('{' :: '{' :: (" .TimeFrom ".toList ++ ('}' :: '}' :: post.toList))))
      = Except.ok [TmplPart.lit mid.toList, TmplPart.field TField.timeFrom,
          TmplPart.lit post.toList] := by
    rw [scanText_append _ [] _ hmid, List.nil_append, scanTmpl_open, h4]
    rfl
  have h2 : scanTmpl .action []
      (" .Query ".toList ++ ('}' :: '}' ::
        (mid.toList ++ ('{' :: '{' :: (" .TimeFrom ".toList ++ ('}' :: '}' :: post.toList))))))
      = Except.ok [TmplPart.field TField.query, TmplPart.lit mid.toList,
          TmplPart.field TField.timeFrom, TmplPart.lit post.toList] := by
    rw [scanAction_append _ [] _ hq, List.nil_append, hcloseQ, h3]
    rfl
  have h1 : scanTmpl .text []
      (pre.toList ++ ('{' :: '{' :: (" .Query ".toList ++ ('}' :: '}' ::
        (mid.toList ++ ('{' :: '{' :: (" .TimeFrom ".toList ++ ('}' :: '}' :: post.toList))))))))
      = Except.ok [TmplPart.lit pre.toList, TmplPart.field TField.query,
          TmplPart.lit mid.toList, TmplPart.field TField.timeFrom,
          TmplPart.lit post.toList] := by
    rw [scanText_append _ [] _ hpre, List.nil_append, scanTmpl_open, h2]
    rfl
  have hsrc : (pre ++ "{{ .Query }}" ++ mid ++ "{{ .TimeFrom }}" ++ post).toList
      = pre.toList ++ ('{' :: '{' :: (" .Query ".toList ++ ('}' :: '}' ::
          (mid.toList ++ ('{' :: '{' :: (" .TimeFrom ".toList
            ++ ('}' :: '}' :: post.toList))))))) := by
    rw [toList_append, toList_append, toList_append, toList_append]
    simp only [List.append_assoc]
    rw [hA, hB]
  have hmk : ∀ s : String, String.mk s.toList = s := fun _ => rfl
  unfold getRenderedTemplate
  rw [hsrc, h1, wrap64_eq_of_range _ hlo hhi]
  simp [renderParts, hmk, String.append_assoc]

/-- C5 witness: rendering pre "A", mid "B", post "C" with query "q" and
T = 7 substitutes 7000 and "q". -/
theorem c5_render_substitutes_witness :
    getRenderedTemplate ("A" ++ "{{ .Query }}" ++ "B" ++ "{{ .TimeFrom }}" ++ "C") "q" 7
      = Except.ok ("A" ++ "q" ++ "B" ++ toString ((7 : Int) * 1000) ++ "C") :=
  c5_render_substitutes "A" "B" "C" "q" 7 (by decide) (by decide) (by decide)
    (by norm_num) (by norm_num)

end EsCheck
